import Mathlib

/-!
Shallow embedding of the incremental document indexing and retrieval pipeline
of the LLM_Storytelling repository (module `llm_story_generator`), together
with the story-generation control flow, the fingerprint (hash) store, the
story-memory writer and the export dispatcher.

Modelling conventions:
- The persisted JSON hash database is an association list `HashDB`
  (insertion-ordered, like a Python dict); the file on disk is
  `Option HashDB` (`none` = file absent).
- The filesystem walk of `load_documents` is a list of `FsFile` records in
  walk order; each record carries its relative path, the MD5 digest of its
  content (`hash_file` is a fixed digest of the raw bytes, so it is modelled
  as a per-file value), and the text units the format-specific external
  loader (TextLoader / PyPDFLoader / Docx2txtLoader) extracts from it.
- The FAISS index on disk is `Option (List Document)` (`none` = no persisted
  index); the external `RecursiveCharacterTextSplitter` is a parameter
  `split`.
- Network and disk side effects of `generate_story` are recorded as an
  explicit `Effect` trace; Python exceptions are an `Except PyError` result.
-/

namespace LLMStory

/-- A langchain `Document`: page content plus the source path metadata. -/
structure Document where
  text : String
  source : String
deriving DecidableEq, Repr

/-- The hash database: an insertion-ordered map from relative path to MD5
digest, as held by a Python dict loaded from / dumped to JSON. -/
abbrev HashDB := List (String × String)

/-- Python dict lookup `db[key]` / `key in db` on the association list. -/
def alookup : HashDB → String → Option String
  | [], _ => none
  | (k, v) :: rest, key => if k = key then some v else alookup rest key

/-- Keys of the association list, in order. -/
def dkeys (db : HashDB) : List String := db.map Prod.fst

/-- Python dict assignment `db[k] = v`: replaces in place when the key is
present, appends otherwise (insertion order preserved). -/
def dictInsert : HashDB → String → String → HashDB
  | [], k, v => [(k, v)]
  | (k1, v1) :: rest, k, v =>
      if k1 = k then (k, v) :: rest else (k1, v1) :: dictInsert rest k v

/-- Python `base.update(new)`: every entry of `new` is assigned into `base`
in order, so `new` wins on common keys. -/
def dictUpdate (base new : HashDB) : HashDB :=
  new.foldl (fun d p => dictInsert d p.1 p.2) base

/-- `load_hash_db`: returns the parsed JSON file when it exists, `{}`
otherwise (never errors). -/
def load_hash_db (disk : Option HashDB) : HashDB := disk.getD []

/-- `update_hash_db`: loads the full persisted mapping, merges the new
hashes into it (dict update, last write wins per key) and rewrites the
file with the merged result. -/
def update_hash_db (new_hashes : HashDB) (disk : Option HashDB) : Option HashDB :=
  some (dictUpdate (load_hash_db disk) new_hashes)

/-- One file met by the `os.walk` of `load_documents`: its path relative to
the base directory, the MD5 digest of its content, and the text units the
format-specific external loader yields for it (for a `.txt` file,
`TextLoader` yields exactly one unit holding the whole file). -/
structure FsFile where
  relPath : String
  hash : String
  units : List String
deriving DecidableEq, Repr

/-- Python `s.endswith(sfx)`: the suffix test on the characters. -/
def pyEndsWith (s sfx : String) : Bool := List.isSuffixOf sfx.data s.data

/-- The extension filter `file.endswith((".txt", ".pdf", ".docx"))`. -/
def supportedExt (name : String) : Bool :=
  pyEndsWith name ".txt" || pyEndsWith name ".pdf" || pyEndsWith name ".docx"

/-- `os.path.join` of the base path and a relative path. -/
def joinPath (base rel : String) : String := base ++ "/" ++ rel

/-- The documents the format-specific loader produces for one file, each
tagged with the full path as its source (as TextLoader, PyPDFLoader and
Docx2txtLoader all do). -/
def loadFile (basePath : String) (f : FsFile) : List Document :=
  f.units.map (fun t => { text := t, source := joinPath basePath f.relPath })

/-- The selection guard `selected_files and rel_path not in selected_files`:
with no selection, or with an EMPTY selection list (falsy in Python), no
file is skipped. -/
def selSkip (sel : Option (List String)) (rel : String) : Bool :=
  match sel with
  | none => false
  | some l => !l.isEmpty && !(decide (rel ∈ l))

/-- The body of the walk loop of `load_documents` for one file: extension
filter, selection filter, fingerprint skip, then dispatch to the loader and
stage the new hash. `hash_db` is the database loaded once at entry. -/
def processFile (basePath : String) (hash_db : HashDB) (sel : Option (List String))
    (acc : List Document × HashDB) (f : FsFile) : List Document × HashDB :=
  if !supportedExt f.relPath then acc
  else if selSkip sel f.relPath then acc
  else if alookup hash_db f.relPath = some f.hash then acc
  else (acc.1 ++ loadFile basePath f, dictInsert acc.2 f.relPath f.hash)

/-- The walk loop of `load_documents` over the files in walk order,
accumulating loaded documents and staged hashes. -/
def walkFiles (basePath : String) (hash_db : HashDB) (sel : Option (List String)) :
    List FsFile → List Document × HashDB → List Document × HashDB
  | [], acc => acc
  | f :: fs, acc => walkFiles basePath hash_db sel fs (processFile basePath hash_db sel acc f)

/-- The batch of hashes `load_documents` stages during the walk and hands to
`update_hash_db` at the end. -/
def stagedHashes (basePath : String) (files : List FsFile) (sel : Option (List String))
    (disk : Option HashDB) : HashDB :=
  (walkFiles basePath (load_hash_db disk) sel files ([], [])).2

/-- `load_documents`: loads the hash database, walks the directory, loads
every supported, selected, changed file, then updates the hash database
once with all staged hashes. Returns the loaded documents and the hash
database file state after the update. -/
def load_documents (basePath : String) (files : List FsFile) (sel : Option (List String))
    (disk : Option HashDB) : List Document × Option HashDB :=
  ((walkFiles basePath (load_hash_db disk) sel files ([], [])).1,
   update_hash_db (walkFiles basePath (load_hash_db disk) sel files ([], [])).2 disk)

/-- `load_vectordb`: `FAISS.load_local` on the persisted index; raises when
no persisted index exists. -/
def load_vectordb (disk : Option (List Document)) : Except String (List Document) :=
  match disk with
  | some idx => Except.ok idx
  | none => Except.error "Failed to load vector database: no index at INDEX_PATH"

/-- Result of `append_to_index`: the in-memory index handle, the disk state
after the call, and whether `save_local` ran. -/
structure AppendResult where
  handle : List Document
  disk : Option (List Document)
  wrote : Bool
deriving DecidableEq, Repr

/-- `append_to_index`: with no new documents it simply returns
`load_vectordb()` (no split, no embed, no save); otherwise it splits the
documents into chunks, appends them to the loaded index when one is
persisted or builds a fresh index from them, and saves the result. The
external splitter is the parameter `split`. -/
def append_to_index (split : List Document → List Document) (new_docs : List Document)
    (disk : Option (List Document)) : Except String AppendResult :=
  if new_docs.isEmpty then
    (load_vectordb disk).map (fun idx => { handle := idx, disk := disk, wrote := false })
  else
    let chunks := split new_docs
    match disk with
    | some idx =>
        Except.ok { handle := idx ++ chunks, disk := some (idx ++ chunks), wrote := true }
    | none =>
        Except.ok { handle := chunks, disk := some chunks, wrote := true }

/-- Disk state of the index after a call to `append_to_index` (unchanged
when the call raises, since the failing load writes nothing). -/
def diskAfterAppend (split : List Document → List Document) (new_docs : List Document)
    (disk : Option (List Document)) : Option (List Document) :=
  match append_to_index split new_docs disk with
  | Except.ok r => r.disk
  | Except.error _ => disk

/-- Python `s.replace(old, new)` for a one-character pattern and
replacement (the only shape the code uses): every occurrence of the
character is replaced. -/
def pyReplaceChar (s : String) (old new : Char) : String :=
  String.mk (s.data.map (fun c => if c = old then new else c))

/-- ASCII whitespace, the characters `str.strip()` removes here. -/
def isSpaceChar (c : Char) : Bool := c = ' ' || c = '\t' || c = '\n' || c = '\r'

/-- Python `s.strip()`: drops leading and trailing whitespace. -/
def pyStrip (s : String) : String :=
  String.mk (((s.data.dropWhile isSpaceChar).reverse.dropWhile isSpaceChar).reverse)

/-- Python `s.lower()` on the ASCII strings used for mode labels. -/
def pyLower (s : String) : String := String.mk (s.data.map Char.toLower)

/-- Configured documents root (config.DOCS_PATH). -/
def DOCS_PATH : String := "./docs"

/-- Configured story-memory directory (config.MEMORY_STORIES_PATH). -/
def MEMORY_STORIES_PATH : String := "./docs/memory_stories"

/-- `store_story_to_memory`: returns the path of the file it writes, whose
name is the timestamp with each colon turned into a dash and each letter T
into an underscore, and the exact content written:
`[Time: timestamp]`, a blank line, the story body, a trailing newline. -/
def store_story_to_memory (story_text timestamp : String) : String × String :=
  let filename := "story_" ++ (pyReplaceChar (pyReplaceChar timestamp ':' '-') 'T' '_') ++ ".txt"
  (joinPath MEMORY_STORIES_PATH filename,
   "[Time: " ++ timestamp ++ "]\n\n" ++ story_text ++ "\n")

/-- One row of the `stories` table as `SELECT *` returns it
(id, prompt, response, system_prompt, style, created_at, mode,
memory_added as the stored integer flag). -/
structure StoryRow where
  id : Nat
  prompt : String
  response : String
  system_prompt : String
  style : String
  created_at : String
  mode : String
  memory_added : Nat
deriving DecidableEq, Repr

/-- One exported JSON record of `export_all_stories`. -/
structure StoryJson where
  id : Nat
  prompt : String
  response : String
  system_prompt : String
  style : String
  created_at : String
  mode : String
  memory_added : Bool
deriving DecidableEq, Repr

/-- The JSON record built from a row; `bool(story[7])` is true exactly when
the stored flag is nonzero. -/
def toJsonRow (s : StoryRow) : StoryJson :=
  { id := s.id, prompt := s.prompt, response := s.response,
    system_prompt := s.system_prompt, style := s.style,
    created_at := s.created_at, mode := s.mode,
    memory_added := s.memory_added ≠ 0 }

/-- The value `export_all_stories` returns: dict rows for `json`, raw tuple
rows for `csv`. -/
inductive ExportResult where
  | json (rows : List StoryJson)
  | csv (rows : List StoryRow)
deriving DecidableEq, Repr

/-- `export_all_stories`: fetches all rows, then dispatches on the format
string, raising `ValueError` for anything but `json` and `csv`. -/
def export_all_stories (stories : List StoryRow) (fmt : String) : Except String ExportResult :=
  if fmt = "json" then Except.ok (ExportResult.json (stories.map toJsonRow))
  else if fmt = "csv" then Except.ok (ExportResult.csv stories)
  else Except.error ("Unsupported format: " ++ fmt)

/-- The `Creative Storyteller` preset of STORY_STYLES. -/
def creativeStorytellerPrompt : String :=
  "You are a creative storyteller with a deep understanding of narrative structure and character development. \nYour task is to generate engaging, immersive stories based on user prompts. \nWhen given a scene or prompt:\n1. Create vivid descriptions that engage the senses\n2. Develop characters with depth and personality\n3. Maintain consistent narrative flow\n4. Use appropriate pacing and tension\n5. Incorporate relevant context from provided documents when in RAG mode\n6. Keep the story coherent and engaging\n\nRemember to:\n- Stay in character as a storyteller\n- Use descriptive language\n- Create emotional resonance\n- Maintain narrative consistency"

/-- The `One Piece Writer` preset of STORY_STYLES. -/
def onePieceWriterPrompt : String :=
  "You are a masterful storyteller deeply familiar with the world of One Piece, created by Eiichiro Oda. Your task is to write engaging, original short stories set within the One Piece universe, introducing new characters that seamlessly fit into its world.\n\nThe stories must reflect the tone, themes, and worldbuilding style of One Piece, including:\n\nGrand adventures, camaraderie, and humor\n\nPirate crews, Marines, bounty hunters, and Revolutionary Army dynamics\n\nDevil Fruits and Haki systems\n\nUnique islands and cultures across the Grand Line and beyond\n\nCreative powers, exaggerated personalities, and heartfelt motivations\n\nCharacter Creation Guidelines:\n\nDesign characters with distinct quirks, dreams, and backstories.\n\nAssign them fitting roles (e.g., pirate captain, Marine scientist, revolutionary agent, bounty hunter).\n\nInclude Devil Fruit abilities (if applicable), creative weapons, or Haki types.\n\nNarrative Requirements:\n\nEach short story should be 400 to 800 words.\n\nIntroduce the new character naturally within an exciting or emotional scene.\n\nCapture the charm, humor, and emotional depth typical of One Piece arcs.\n\nAvoid using canon characters directly; brief references (e.g., \"a pirate known as Straw Hat\") are acceptable.\n\nPrioritize creativity, emotional resonance, and narrative immersion. Keep the tone accessible for fans of the anime and manga, with a flair for imaginative action and heartfelt character development."

/-- The storytelling style presets, in declaration order. -/
def STORY_STYLES : List (String × String) :=
  [("Creative Storyteller", creativeStorytellerPrompt),
   ("One Piece Writer", onePieceWriterPrompt)]

/-- The system-prompt choice of `generate_story`:
`custom_prompt or STORY_STYLES.get(selected_style, STORY_STYLES["Creative Storyteller"])`
(an empty custom prompt is falsy, so the preset for the style is used, the
Creative Storyteller preset when the style is unknown). -/
def systemPromptFor (custom_prompt selected_style : String) : String :=
  if custom_prompt = "" then
    (alookup STORY_STYLES selected_style).getD creativeStorytellerPrompt
  else custom_prompt

/-- Observable side effects of one `generate_story` run, in order:
the HTTP GET on the models endpoint issued by `load_llm`, an HTTP
chat-completion request (direct `llm.invoke` or the RAG chain run), the
database insert, the story-memory file write, the FAISS index save. -/
inductive Effect where
  | getModels
  | chatCompletion
  | dbAddStory
  | memoryWrite
  | indexWrite
deriving DecidableEq, Repr

/-- Python exceptions the pipeline raises. -/
inductive PyError where
  | connectionError (msg : String)
  | valueError (msg : String)
  | loadError (msg : String)
deriving DecidableEq, Repr

/-- `load_llm`: first probes the models endpoint with an HTTP GET (the
`getModels` effect); an unreachable server or a non-200 status is a
connection error, a reachable server whose model list misses the
configured model is a connection error, and otherwise the ChatOpenAI
client is built. `server` is `none` when the probe fails,
`some models` the id list the endpoint returns. -/
def load_llm (server : Option (List String)) (configModel : String) :
    List Effect × Except PyError Unit :=
  ([Effect.getModels],
   match server with
   | none => Except.error (PyError.connectionError "Failed to connect to local LLM server")
   | some models =>
       if configModel ∈ models then Except.ok ()
       else Except.error (PyError.connectionError "Model not found in available models"))

/-- External state and opaque collaborator behavior one `generate_story`
run sees: the models-endpoint answer, the configured model id, the
documents directory walk, the persisted hash database, the persisted
index, the external splitter, and the text the model returns. -/
structure GenEnv where
  server : Option (List String)
  configModel : String
  files : List FsFile
  hashDbDisk : Option HashDB
  indexDisk : Option (List Document)
  split : List Document → List Document
  llmAnswer : String

/-- `generate_story`: computes the system prompt, initializes the LLM
(which probes the models endpoint), then branches on the normalized mode
string. Direct mode sends one chat completion and persists the story. RAG
mode first validates that the selection is nonempty, then loads the
selected documents, validates that some resolved to content, appends them
to the index and runs the retrieval chain. The result pairs the effect
trace with the outcome. -/
def generate_story (env : GenEnv) (_user_input selected_style custom_prompt mode : String)
    (selected : List String) : List Effect × Except PyError String :=
  let _system_prompt := systemPromptFor custom_prompt selected_style
  let llmRes := load_llm env.server env.configModel
  match llmRes.2 with
  | Except.error e => (llmRes.1, Except.error e)
  | Except.ok _ =>
    let m := pyLower (pyStrip mode)
    if m = "direct generation" then
      (llmRes.1 ++ [Effect.chatCompletion, Effect.dbAddStory, Effect.memoryWrite],
       Except.ok env.llmAnswer)
    else if selected.isEmpty then
      (llmRes.1, Except.error (PyError.valueError "No documents selected for RAG mode"))
    else
      let loaded := load_documents DOCS_PATH env.files (some selected) env.hashDbDisk
      if loaded.1.isEmpty then
        (llmRes.1, Except.error (PyError.valueError "No documents available for RAG mode"))
      else
        match append_to_index env.split loaded.1 env.indexDisk with
        | Except.error e => (llmRes.1, Except.error (PyError.loadError e))
        | Except.ok _ =>
            (llmRes.1 ++ [Effect.indexWrite, Effect.chatCompletion,
                          Effect.dbAddStory, Effect.memoryWrite],
             Except.ok env.llmAnswer)

/-- A concrete environment: reachable server offering the configured model,
empty documents directory, no persisted state, identity splitter. -/
def envReachable : GenEnv :=
  { server := some ["Qwen3-30B"], configModel := "Qwen3-30B", files := [],
    hashDbDisk := none, indexDisk := none, split := id, llmAnswer := "story" }

/-! ### Dictionary lemmas -/

theorem alookup_dictInsert_self (d : HashDB) (k v : String) :
    alookup (dictInsert d k v) k = some v := by
  induction d with
  | nil => simp [dictInsert, alookup]
  | cons p rest ih =>
    obtain ⟨k1, v1⟩ := p
    by_cases h : k1 = k
    · simp [dictInsert, h, alookup]
    · simp [dictInsert, h, alookup, ih]

@[simp] theorem dkeys_nil : dkeys [] = [] := rfl

@[simp] theorem dkeys_cons (k v : String) (rest : HashDB) :
    dkeys ((k, v) :: rest) = k :: dkeys rest := rfl

theorem dictInsert_cons_eq (k v1 v : String) (rest : HashDB) :
    dictInsert ((k, v1) :: rest) k v = (k, v) :: rest := by
  simp [dictInsert]

theorem dictInsert_cons_ne (k1 v1 k v : String) (rest : HashDB) (h : k1 ≠ k) :
    dictInsert ((k1, v1) :: rest) k v = (k1, v1) :: dictInsert rest k v := by
  simp [dictInsert, h]

theorem alookup_dictInsert_ne (d : HashDB) (k v k2 : String) (h : k2 ≠ k) :
    alookup (dictInsert d k v) k2 = alookup d k2 := by
  have hk2 : ¬(k = k2) := fun hh => h hh.symm
  induction d with
  | nil => simp [dictInsert, alookup, hk2]
  | cons p rest ih =>
    obtain ⟨k1, v1⟩ := p
    by_cases hk : k1 = k
    · subst hk
      simp [dictInsert, alookup, hk2]
    · simp [dictInsert, hk, alookup, ih]

theorem alookup_eq_none_of_not_mem_dkeys (d : HashDB) (k : String) (h : k ∉ dkeys d) :
    alookup d k = none := by
  induction d with
  | nil => simp [alookup]
  | cons p rest ih =>
    obtain ⟨k1, v1⟩ := p
    rw [dkeys_cons, List.mem_cons] at h
    push_neg at h
    have h1 : ¬(k1 = k) := fun hh => h.1 hh.symm
    simp [alookup, h1, ih h.2]

theorem mem_dkeys_dictInsert (d : HashDB) (k v x : String) :
    x ∈ dkeys (dictInsert d k v) ↔ x = k ∨ x ∈ dkeys d := by
  induction d with
  | nil => simp [dictInsert]
  | cons p rest ih =>
    obtain ⟨k1, v1⟩ := p
    by_cases hk : k1 = k
    · subst hk
      rw [dictInsert_cons_eq, dkeys_cons, dkeys_cons]
      simp only [List.mem_cons]
      tauto
    · rw [dictInsert_cons_ne _ _ _ _ _ hk, dkeys_cons, dkeys_cons]
      simp only [List.mem_cons, ih]
      tauto

theorem nodup_dkeys_dictInsert (d : HashDB) (k v : String) (h : (dkeys d).Nodup) :
    (dkeys (dictInsert d k v)).Nodup := by
  induction d with
  | nil => simp [dictInsert]
  | cons p rest ih =>
    obtain ⟨k1, v1⟩ := p
    rw [dkeys_cons, List.nodup_cons] at h
    by_cases hk : k1 = k
    · subst hk
      rw [dictInsert_cons_eq, dkeys_cons, List.nodup_cons]
      exact h
    · have h1 : k1 ∉ dkeys (dictInsert rest k v) := by
        rw [mem_dkeys_dictInsert]
        push_neg
        exact ⟨hk, h.1⟩
      rw [dictInsert_cons_ne _ _ _ _ _ hk, dkeys_cons, List.nodup_cons]
      exact ⟨h1, ih h.2⟩

theorem dictUpdate_cons (base : HashDB) (p : String × String) (rest : HashDB) :
    dictUpdate base (p :: rest) = dictUpdate (dictInsert base p.1 p.2) rest := rfl

theorem alookup_dictUpdate_notin (new base : HashDB) (k : String)
    (h : alookup new k = none) :
    alookup (dictUpdate base new) k = alookup base k := by
  induction new generalizing base with
  | nil => simp [dictUpdate]
  | cons p rest ih =>
    obtain ⟨k1, v1⟩ := p
    by_cases hk : k1 = k
    · simp [alookup, hk] at h
    · simp only [alookup, if_neg hk] at h
      rw [dictUpdate_cons, ih _ h, alookup_dictInsert_ne _ _ _ _ (fun hh => hk hh.symm)]

theorem alookup_dictUpdate_some (new base : HashDB) (k v : String)
    (hnd : (dkeys new).Nodup) (h : alookup new k = some v) :
    alookup (dictUpdate base new) k = some v := by
  induction new generalizing base with
  | nil => simp [alookup] at h
  | cons p rest ih =>
    obtain ⟨k1, v1⟩ := p
    rw [dkeys_cons, List.nodup_cons] at hnd
    by_cases hk : k1 = k
    · subst hk
      simp [alookup] at h
      subst h
      have hnone : alookup rest k1 = none :=
        alookup_eq_none_of_not_mem_dkeys _ _ hnd.1
      rw [dictUpdate_cons, alookup_dictUpdate_notin _ _ _ hnone]
      exact alookup_dictInsert_self _ _ _
    · simp only [alookup, if_neg hk] at h
      rw [dictUpdate_cons]
      exact ih _ hnd.2 h

/-! ### Claim theorems: fingerprint store, story memory, export, prompts -/

/-- C4: `load_hash_db` returns the empty mapping when no persisted file
exists (total, never errors), and `update_hash_db` merges the new entries
into the full persisted mapping so that an entry of the batch ends up in
the rewritten store (new entries win per key) while every key absent from
the batch keeps its previously persisted hash. -/
theorem fingerprint_store_contract (disk : Option HashDB) (new_hashes : HashDB)
    (k k2 v : String) (habsent : alookup new_hashes k = none)
    (hnd : (dkeys new_hashes).Nodup) (hin : alookup new_hashes k2 = some v) :
    load_hash_db none = [] ∧
    alookup (load_hash_db (update_hash_db new_hashes disk)) k
      = alookup (load_hash_db disk) k ∧
    alookup (load_hash_db (update_hash_db new_hashes disk)) k2 = some v := by
  refine ⟨rfl, ?_, ?_⟩
  · simp only [update_hash_db, load_hash_db, Option.getD]
    exact alookup_dictUpdate_notin _ _ _ habsent
  · simp only [update_hash_db, load_hash_db, Option.getD]
    exact alookup_dictUpdate_some _ _ _ _ hnd hin

theorem fingerprint_store_contract_witness :
    load_hash_db none = [] ∧
    alookup (load_hash_db (update_hash_db [("b", "h2")] (some [("a", "h1"), ("b", "old")]))) "a"
      = alookup (load_hash_db (some [("a", "h1"), ("b", "old")])) "a" ∧
    alookup (load_hash_db (update_hash_db [("b", "h2")] (some [("a", "h1"), ("b", "old")]))) "b"
      = some "h2" :=
  fingerprint_store_contract (some [("a", "h1"), ("b", "old")]) [("b", "h2")]
    "a" "b" "h2" (by decide) (by decide) (by decide)

/-- C7: `store_story_to_memory` writes into the memory-stories directory a
file named from the timestamp with colons turned into dashes and the letter
T into an underscore, whose whole content is the literal header
`[Time: timestamp]`, a blank line, the story body and a trailing newline;
at the concrete inputs of scenario 3 the content contains both literal
strings. -/
theorem store_story_to_memory_format (story ts : String) :
    (store_story_to_memory story ts).1
      = joinPath MEMORY_STORIES_PATH
          ("story_" ++ (pyReplaceChar (pyReplaceChar ts ':' '-') 'T' '_') ++ ".txt") ∧
    (store_story_to_memory story ts).2 = "[Time: " ++ ts ++ "]\n\n" ++ story ++ "\n" ∧
    (store_story_to_memory "A tale." "2024-01-01T12:00:00").1
      = "./docs/memory_stories/story_2024-01-01_12-00-00.txt" ∧
    (∃ a b, (store_story_to_memory "A tale." "2024-01-01T12:00:00").2
        = a ++ "2024-01-01T12:00:00" ++ b) ∧
    (∃ a b, (store_story_to_memory "A tale." "2024-01-01T12:00:00").2
        = a ++ "A tale." ++ b) := by
  refine ⟨rfl, rfl, by decide, ⟨"[Time: ", "]\n\nA tale.\n", by decide⟩,
    ⟨"[Time: 2024-01-01T12:00:00]\n\n", "\n", by decide⟩⟩

/-- C8: `export_all_stories` raises ValueError exactly for the formats
other than `json` and `csv`, and its message names the offending format. -/
theorem export_format_errors (stories : List StoryRow) (fmt : String) :
    ((∃ e, export_all_stories stories fmt = Except.error e) ↔ fmt ≠ "json" ∧ fmt ≠ "csv") ∧
    (fmt ≠ "json" → fmt ≠ "csv" →
      export_all_stories stories fmt = Except.error ("Unsupported format: " ++ fmt)) := by
  constructor
  · constructor
    · rintro ⟨e, he⟩
      by_cases h1 : fmt = "json"
      · simp [export_all_stories, h1] at he
      · by_cases h2 : fmt = "csv"
        · simp [export_all_stories, h1, h2] at he
        · exact ⟨h1, h2⟩
    · rintro ⟨h1, h2⟩
      exact ⟨"Unsupported format: " ++ fmt, by simp [export_all_stories, h1, h2]⟩
  · intro h1 h2
    simp [export_all_stories, h1, h2]

theorem export_format_errors_witness :
    export_all_stories [] "xml" = Except.error ("Unsupported format: " ++ "xml") :=
  (export_format_errors [] "xml").2 (by decide) (by decide)

/-- C10: in `generate_story` the system prompt is the custom prompt
whenever it is nonempty; an empty custom prompt falls back to the preset
registered for the selected style, and to the Creative Storyteller preset
when the style names no preset. -/
theorem system_prompt_fallback (custom style prompt : String) :
    (custom ≠ "" → systemPromptFor custom style = custom) ∧
    ((style, prompt) ∈ STORY_STYLES → systemPromptFor "" style = prompt) ∧
    (style ≠ "Creative Storyteller" → style ≠ "One Piece Writer" →
      systemPromptFor "" style = creativeStorytellerPrompt) := by
  refine ⟨fun h => by simp [systemPromptFor, h], fun hmem => ?_, fun h1 h2 => ?_⟩
  · simp [STORY_STYLES] at hmem
    rcases hmem with ⟨h1, h2⟩ | ⟨h1, h2⟩ <;> subst h1 <;> subst h2 <;> rfl
  · have e1 : ¬("Creative Storyteller" = style) := fun h => h1 h.symm
    have e2 : ¬("One Piece Writer" = style) := fun h => h2 h.symm
    simp [systemPromptFor, alookup, STORY_STYLES, e1, e2]

theorem system_prompt_fallback_witness :
    systemPromptFor "a custom prompt" "Mystery" = "a custom prompt" ∧
    systemPromptFor "" "One Piece Writer" = onePieceWriterPrompt ∧
    systemPromptFor "" "Mystery" = creativeStorytellerPrompt :=
  ⟨(system_prompt_fallback "a custom prompt" "Mystery" "p").1 (by decide),
   (system_prompt_fallback "" "One Piece Writer" onePieceWriterPrompt).2.1
     (by simp [STORY_STYLES]),
   (system_prompt_fallback "" "Mystery" "p").2.2 (by decide) (by decide)⟩

/-! ### Walk lemmas for the document loader -/

theorem joinPath_inj (bp a b : String) (h : joinPath bp a = joinPath bp b) : a = b := by
  have hd := congrArg String.data h
  simp [joinPath, String.data_append] at hd
  exact String.ext hd

theorem loadFile_source (bp : String) (f : FsFile) (d : Document)
    (hd : d ∈ loadFile bp f) : d.source = joinPath bp f.relPath := by
  simp [loadFile] at hd
  obtain ⟨t, _, rfl⟩ := hd
  rfl

theorem walkFiles_cons (bp : String) (hdb : HashDB) (sel : Option (List String))
    (f : FsFile) (fs : List FsFile) (acc : List Document × HashDB) :
    walkFiles bp hdb sel (f :: fs) acc
      = walkFiles bp hdb sel fs (processFile bp hdb sel acc f) := rfl

theorem walkFiles_append (bp : String) (hdb : HashDB) (sel : Option (List String))
    (l1 l2 : List FsFile) : ∀ acc,
    walkFiles bp hdb sel (l1 ++ l2) acc = walkFiles bp hdb sel l2 (walkFiles bp hdb sel l1 acc) := by
  induction l1 with
  | nil => intro acc; rfl
  | cons f fs ih => intro acc; rw [List.cons_append, walkFiles_cons, walkFiles_cons, ih]

theorem processFile_cases (bp : String) (hdb : HashDB) (sel : Option (List String))
    (acc : List Document × HashDB) (f : FsFile) :
    processFile bp hdb sel acc f = acc ∨
    (¬ alookup hdb f.relPath = some f.hash ∧
      processFile bp hdb sel acc f
        = (acc.1 ++ loadFile bp f, dictInsert acc.2 f.relPath f.hash)) := by
  unfold processFile
  split
  · exact Or.inl rfl
  · split
    · exact Or.inl rfl
    · split
      · exact Or.inl rfl
      · rename_i h3
        exact Or.inr ⟨h3, rfl⟩

theorem processFile_processes (bp : String) (hdb : HashDB) (sel : Option (List String))
    (acc : List Document × HashDB) (f : FsFile)
    (hext : supportedExt f.relPath = true)
    (hsel : selSkip sel f.relPath = false)
    (hnew : ¬ alookup hdb f.relPath = some f.hash) :
    processFile bp hdb sel acc f
      = (acc.1 ++ loadFile bp f, dictInsert acc.2 f.relPath f.hash) := by
  simp [processFile, hext, hsel, hnew]

theorem walkFiles_docs_mono (bp : String) (hdb : HashDB) (sel : Option (List String)) :
    ∀ (fs : List FsFile) (acc : List Document × HashDB) (d : Document),
      d ∈ acc.1 → d ∈ (walkFiles bp hdb sel fs acc).1 := by
  intro fs
  induction fs with
  | nil => intro acc d hd; exact hd
  | cons f fs ih =>
    intro acc d hd
    rw [walkFiles_cons]
    apply ih
    rcases processFile_cases bp hdb sel acc f with hcase | ⟨_, hcase⟩
    · rw [hcase]; exact hd
    · rw [hcase]; exact List.mem_append_left _ hd

theorem walkFiles_staged_stable (bp : String) (hdb : HashDB) (sel : Option (List String))
    (r : String) : ∀ (fs : List FsFile) (acc : List Document × HashDB),
      (∀ g ∈ fs, g.relPath ≠ r) →
      alookup (walkFiles bp hdb sel fs acc).2 r = alookup acc.2 r := by
  intro fs
  induction fs with
  | nil => intro acc _; rfl
  | cons f fs ih =>
    intro acc hall
    rw [walkFiles_cons, ih _ (fun g hg => hall g (List.mem_cons_of_mem _ hg))]
    rcases processFile_cases bp hdb sel acc f with hcase | ⟨_, hcase⟩
    · rw [hcase]
    · rw [hcase]
      exact alookup_dictInsert_ne _ _ _ _
        (fun he => hall f (List.mem_cons_self _ _) he.symm)

theorem walkFiles_staged_nodup (bp : String) (hdb : HashDB) (sel : Option (List String)) :
    ∀ (fs : List FsFile) (acc : List Document × HashDB),
      (dkeys acc.2).Nodup → (dkeys (walkFiles bp hdb sel fs acc).2).Nodup := by
  intro fs
  induction fs with
  | nil => intro acc h; exact h
  | cons f fs ih =>
    intro acc h
    rw [walkFiles_cons]
    apply ih
    rcases processFile_cases bp hdb sel acc f with hcase | ⟨_, hcase⟩
    · rw [hcase]; exact h
    · rw [hcase]; exact nodup_dkeys_dictInsert _ _ _ h

theorem walkFiles_skip (bp : String) (hdb : HashDB) (sel : Option (List String))
    (r h : String) (hr : alookup hdb r = some h) :
    ∀ (fs : List FsFile) (acc : List Document × HashDB),
      (∀ g ∈ fs, g.relPath = r → g.hash = h) →
      alookup (walkFiles bp hdb sel fs acc).2 r = alookup acc.2 r ∧
      ∀ d ∈ (walkFiles bp hdb sel fs acc).1, d ∈ acc.1 ∨ d.source ≠ joinPath bp r := by
  intro fs
  induction fs with
  | nil => intro acc _; exact ⟨rfl, fun d hd => Or.inl hd⟩
  | cons f fs ih =>
    intro acc hall
    rw [walkFiles_cons]
    rcases processFile_cases bp hdb sel acc f with hcase | ⟨hne, hcase⟩
    · rw [hcase]
      exact ih acc (fun g hg => hall g (List.mem_cons_of_mem _ hg))
    · have hrne : f.relPath ≠ r := by
        intro he
        exact hne (by rw [he, hr, hall f (List.mem_cons_self _ _) he])
      rw [hcase]
      have hstep := ih (acc.1 ++ loadFile bp f, dictInsert acc.2 f.relPath f.hash)
        (fun g hg => hall g (List.mem_cons_of_mem _ hg))
      refine ⟨?_, ?_⟩
      · rw [hstep.1]
        exact alookup_dictInsert_ne _ _ _ _ (fun he => hrne he.symm)
      · intro d hd
        rcases hstep.2 d hd with hin | hns
        · rcases List.mem_append.1 hin with hin2 | hin2
          · exact Or.inl hin2
          · refine Or.inr ?_
            rw [loadFile_source bp f d hin2]
            exact fun he => hrne (joinPath_inj bp _ _ he)
        · exact Or.inr hns

/-- C5: a file whose current content hash equals the fingerprint stored
under its relative path contributes no document this run (no loaded
document carries its path as source) and is absent from the batch of
hashes staged for the fingerprint update. -/
theorem loader_skips_fingerprinted (bp : String) (files : List FsFile)
    (sel : Option (List String)) (disk : Option HashDB) (f : FsFile)
    (hmem : f ∈ files) (hnd : (files.map FsFile.relPath).Nodup)
    (hmatch : alookup (load_hash_db disk) f.relPath = some f.hash) :
    (∀ d ∈ (load_documents bp files sel disk).1, d.source ≠ joinPath bp f.relPath) ∧
    alookup (stagedHashes bp files sel disk) f.relPath = none := by
  have hall : ∀ g ∈ files, g.relPath = f.relPath → g.hash = f.hash := by
    intro g hg he
    rw [List.inj_on_of_nodup_map hnd hg hmem he]
  have hw := walkFiles_skip bp (load_hash_db disk) sel f.relPath f.hash hmatch
    files ([], []) hall
  constructor
  · intro d hd
    rcases hw.2 d hd with hin | hne
    · exact absurd hin (List.not_mem_nil d)
    · exact hne
  · exact hw.1

theorem loader_skips_fingerprinted_witness :
    (∀ d ∈ (load_documents "./docs"
        [{ relPath := "a.txt", hash := "h1", units := ["hello world"] }] none
        (some [("a.txt", "h1")])).1,
      d.source ≠ joinPath "./docs" "a.txt") ∧
    alookup (stagedHashes "./docs"
        [{ relPath := "a.txt", hash := "h1", units := ["hello world"] }] none
        (some [("a.txt", "h1")])) "a.txt" = none :=
  loader_skips_fingerprinted "./docs"
    [{ relPath := "a.txt", hash := "h1", units := ["hello world"] }] none
    (some [("a.txt", "h1")])
    { relPath := "a.txt", hash := "h1", units := ["hello world"] }
    (by decide) (by decide) (by decide)

/-- C6: a supported file that passes the selection filter and has no
fingerprint entry yields at least one document tagged with its path as
source (given that the format loader extracts at least one text unit, as
TextLoader always does), and after the run the fingerprint store holds its
current content hash under its relative path. -/
theorem loader_processes_new_files (bp : String) (files : List FsFile)
    (sel : Option (List String)) (disk : Option HashDB) (f : FsFile)
    (hmem : f ∈ files) (hnd : (files.map FsFile.relPath).Nodup)
    (hext : supportedExt f.relPath = true)
    (hsel : selSkip sel f.relPath = false)
    (hnew : alookup (load_hash_db disk) f.relPath = none)
    (hunits : f.units ≠ []) :
    (∃ d ∈ (load_documents bp files sel disk).1, d.source = joinPath bp f.relPath) ∧
    alookup (load_hash_db (load_documents bp files sel disk).2) f.relPath = some f.hash := by
  obtain ⟨l1, l2, rfl⟩ := List.append_of_mem hmem
  have hwalk : walkFiles bp (load_hash_db disk) sel (l1 ++ f :: l2) ([], [])
      = walkFiles bp (load_hash_db disk) sel l2
          (processFile bp (load_hash_db disk) sel
            (walkFiles bp (load_hash_db disk) sel l1 ([], [])) f) := by
    rw [walkFiles_append, walkFiles_cons]
  have hproc := processFile_processes bp (load_hash_db disk) sel
    (walkFiles bp (load_hash_db disk) sel l1 ([], [])) f hext hsel
    (by rw [hnew]; exact fun he => Option.noConfusion he)
  have hl2 : ∀ g ∈ l2, g.relPath ≠ f.relPath := by
    intro g hg he
    have h0 : ((l1.map FsFile.relPath) ++ (f.relPath :: l2.map FsFile.relPath)).Nodup := by
      simpa using hnd
    have hnd2 : (f.relPath :: l2.map FsFile.relPath).Nodup := h0.of_append_right
    exact (List.nodup_cons.1 hnd2).1 (he ▸ List.mem_map_of_mem FsFile.relPath hg)
  obtain ⟨t, ht⟩ := List.exists_mem_of_ne_nil f.units hunits
  have hdoc : ({ text := t, source := joinPath bp f.relPath } : Document)
      ∈ loadFile bp f :=
    List.mem_map_of_mem _ ht
  constructor
  · refine ⟨{ text := t, source := joinPath bp f.relPath }, ?_, rfl⟩
    show _ ∈ (walkFiles bp (load_hash_db disk) sel (l1 ++ f :: l2) ([], [])).1
    rw [hwalk]
    apply walkFiles_docs_mono
    rw [hproc]
    exact List.mem_append_right _ hdoc
  · show alookup (load_hash_db (update_hash_db
        (walkFiles bp (load_hash_db disk) sel (l1 ++ f :: l2) ([], [])).2 disk)) f.relPath
      = some f.hash
    have hstaged : alookup (walkFiles bp (load_hash_db disk) sel (l1 ++ f :: l2) ([], [])).2
        f.relPath = some f.hash := by
      rw [hwalk, walkFiles_staged_stable _ _ _ _ _ _ hl2, hproc]
      exact alookup_dictInsert_self _ _ _
    have hndk : (dkeys (walkFiles bp (load_hash_db disk) sel (l1 ++ f :: l2) ([], [])).2).Nodup :=
      walkFiles_staged_nodup _ _ _ _ ([], []) (by simp [dkeys])
    simp only [update_hash_db, load_hash_db, Option.getD]
    exact alookup_dictUpdate_some _ _ _ _ hndk hstaged

theorem loader_processes_new_files_witness :
    (∃ d ∈ (load_documents "./docs"
        [{ relPath := "a.txt", hash := "h1", units := ["hello world"] }] none none).1,
      d.source = joinPath "./docs" "a.txt") ∧
    alookup (load_hash_db (load_documents "./docs"
        [{ relPath := "a.txt", hash := "h1", units := ["hello world"] }] none none).2)
      "a.txt" = some "h1" :=
  loader_processes_new_files "./docs"
    [{ relPath := "a.txt", hash := "h1", units := ["hello world"] }] none none
    { relPath := "a.txt", hash := "h1", units := ["hello world"] }
    (by decide) (by decide) (by decide) (by decide) (by decide) (by decide)

/-- C9: an empty selection list is falsy in the guard
`selected_files and rel_path not in selected_files`, so passing
`selected_files = []` applies no selection filter at all: the run is
identical to a run with no selection, loading every supported, changed
file. -/
theorem empty_selection_no_filter (bp : String) (files : List FsFile)
    (disk : Option HashDB) :
    load_documents bp files (some []) disk = load_documents bp files none disk := by
  have hpf : ∀ (acc : List Document × HashDB) (f : FsFile),
      processFile bp (load_hash_db disk) (some []) acc f
        = processFile bp (load_hash_db disk) none acc f := fun _ _ => rfl
  have hwalk : ∀ (fs : List FsFile) (acc : List Document × HashDB),
      walkFiles bp (load_hash_db disk) (some []) fs acc
        = walkFiles bp (load_hash_db disk) none fs acc := by
    intro fs
    induction fs with
    | nil => intro acc; rfl
    | cons f fs ih => intro acc; rw [walkFiles_cons, walkFiles_cons, hpf, ih]
  simp only [load_documents, hwalk]

/-- C2: `append_to_index` on an empty document list returns the persisted
index as the handle without writing to disk, so two successive empty
appends leave the persisted index byte-for-byte unchanged. -/
theorem empty_append_idempotent (split : List Document → List Document)
    (idx : List Document) :
    append_to_index split [] (some idx)
      = Except.ok { handle := idx, disk := some idx, wrote := false } ∧
    diskAfterAppend split [] (diskAfterAppend split [] (some idx)) = some idx :=
  ⟨rfl, rfl⟩

/-- C3: `append_to_index` on an empty document list with no persisted index
propagates the load failure: it raises instead of returning a handle, and
no index is created on disk. -/
theorem empty_append_no_index_errors (split : List Document → List Document) :
    append_to_index split [] none
      = Except.error "Failed to load vector database: no index at INDEX_PATH" ∧
    diskAfterAppend split [] none = none :=
  ⟨rfl, rfl⟩

/-- C1 counterexample: generation in retrieval mode with an empty
selected-document list does raise the validation error, but the run has
already issued the HTTP GET on the models endpoint (`load_llm` runs before
the selection check), so a network call to the model server does occur,
contrary to the claim. -/
theorem rag_empty_selection_probes_models :
    Effect.getModels ∈ (generate_story envReachable "hi" "Creative Storyteller" ""
        "RAG with Documents" []).1 ∧
    (generate_story envReachable "hi" "Creative Storyteller" "" "RAG with Documents" []).2
      = Except.error (PyError.valueError "No documents selected for RAG mode") := by
  constructor
  · decide
  · rfl

/-- C1 amended: in retrieval mode with an empty selected-document list the
run performs exactly one network call, the models-endpoint probe of
`load_llm`; no chat-completion request is ever made, and the run fails
with the selection validation error when the probe succeeds, with a
connection error otherwise. -/
theorem rag_empty_selection_validation (env : GenEnv) (ui ss cp mode : String)
    (selected : List String)
    (hmode : pyLower (pyStrip mode) ≠ "direct generation")
    (hsel : selected = []) :
    (generate_story env ui ss cp mode selected).1 = [Effect.getModels] ∧
    ((generate_story env ui ss cp mode selected).2
        = Except.error (PyError.valueError "No documents selected for RAG mode") ∨
      ∃ m, (generate_story env ui ss cp mode selected).2
        = Except.error (PyError.connectionError m)) := by
  subst hsel
  cases hs : env.server with
  | none =>
    constructor
    · simp [generate_story, load_llm, hs]
    · exact Or.inr ⟨"Failed to connect to local LLM server", by simp [generate_story, load_llm, hs]⟩
  | some models =>
    by_cases hm : env.configModel ∈ models
    · constructor
      · simp [generate_story, load_llm, hs, hm, hmode]
      · exact Or.inl (by simp [generate_story, load_llm, hs, hm, hmode])
    · constructor
      · simp [generate_story, load_llm, hs, hm]
      · exact Or.inr ⟨"Model not found in available models", by simp [generate_story, load_llm, hs, hm]⟩

theorem rag_empty_selection_validation_witness :
    (generate_story envReachable "hi" "Creative Storyteller" "" "RAG with Documents" []).1
      = [Effect.getModels] ∧
    ((generate_story envReachable "hi" "Creative Storyteller" "" "RAG with Documents" []).2
        = Except.error (PyError.valueError "No documents selected for RAG mode") ∨
      ∃ m, (generate_story envReachable "hi" "Creative Storyteller" "" "RAG with Documents" []).2
        = Except.error (PyError.connectionError m)) :=
  rag_empty_selection_validation envReachable "hi" "Creative Storyteller" ""
    "RAG with Documents" [] (by decide) rfl

end LLMStory
